import Mathlib

/-!
Verification of `src/mis_builder/models/mis_report_instance.py`.

Shallow embedding conventions:
* Dates are day numbers (`Int`) counted from an epoch chosen to fall on a
  Monday, so `weekday d = d % 7` agrees with Python `date.weekday()`
  (Monday = 0).  `datetime.timedelta` arithmetic on dates is exact integer
  arithmetic on day numbers.
* Odoo fields that may be unset (`False`) are `Option`s; Python truthiness
  of such a field is `Option.isSome` (dates and non-empty records), and
  truthiness of a string is non-emptiness.
* Many2one references are modelled by the referenced id (`Nat`), together
  with the fields of the referenced record that the code reads.
* Exceptions (`ValidationError`, `UserError`, and Python `NameError` and
  `AttributeError`) are an `Except` error type.
* External collaborators (the `date.range` table, the reference-parameter
  lookup, date formatting, the AccountingExpressionProcessor, record
  browsing) enter as an explicit environment of functions, as in the spec
  which treats them as contracts.
-/

namespace MisBuilder

/-- A date as a day number; the epoch (day 0) is a Monday. -/
abbrev Date := Int

/-- Python `date.weekday()`: Monday = 0, ..., Sunday = 6.  With the epoch on
a Monday this is the day number modulo 7. -/
def weekday (d : Date) : Int := d % 7

/-- `MODE_FIX = 'fix'`, `MODE_REL = 'relative'`, `MODE_NONE = 'none'`. -/
inductive Mode
  | fix
  | relative
  | none_
  deriving DecidableEq, Repr

/-- The `type` selection of a period: `'d'`, `'w'`, `'date_range'`. -/
inductive PType
  | d
  | w
  | date_range
  deriving DecidableEq, Repr

/-- `SRC_ACTUALS`, `SRC_ACTUALS_ALT`, `SRC_SUMCOL`, `SRC_CMPCOL`. -/
inductive Source
  | actuals
  | actuals_alt
  | sumcol
  | cmpcol
  deriving DecidableEq, Repr

/-- The sign selection of `mis.report.instance.period.sum`. -/
inductive Sign
  | plus
  | minus
  deriving DecidableEq, Repr

/-- One row of `mis.report.instance.period.sum`, seen from its parent
column: `(sign, period_to_sum_id)`. -/
structure SumEntry where
  sign : Sign
  period_to_sum_id : Nat
  deriving DecidableEq, Repr

/-- What `_check_source_cmpcol` reads from a period referenced by
`source_cmpcol_from_id` / `source_cmpcol_to_id`: its id and the id of the
instance owning it. -/
structure PeriodRef where
  id : Nat
  report_instance_id : Nat
  deriving DecidableEq, Repr

/-- The fields of `mis.report.instance.period` that the code under
verification reads (the computed fields `date_from`, `date_to`, `valid` are
the result of `_compute_dates`, kept out of the record). -/
structure Period where
  id : Nat
  name : String
  mode : Mode
  type : Option PType
  date_range_type_id : Option Nat
  offset : Int
  duration : Int
  manual_date_from : Option Date
  manual_date_to : Option Date
  normalize_factor : Int
  sequence : Int
  report_instance_id : Nat
  subkpi_ids : List Nat
  source : Source
  source_aml_model : Option String
  source_sumcol_ids : List SumEntry
  source_sumcol_accdet : Bool
  source_cmpcol_from_id : Option PeriodRef
  source_cmpcol_to_id : Option PeriodRef
  deriving DecidableEq, Repr

/-- One row of the external `date.range` table. -/
structure DateRange where
  id : Nat
  date_start : Date
  date_end : Date
  deriving DecidableEq, Repr

/-- Raw values a parameter can resolve to (Odoo scalars; an unset field is
`vNone`, a record field read through the reference lookup is opaque data). -/
inductive PyValue
  | vNone
  | vStr (s : String)
  | vNum (q : Rat)
  | vRec (id : Nat)
  deriving DecidableEq, Repr

/-- The fields of `mis.report.instance.param.value` the code reads;
`type`, `name` and the `ref_*` descriptors are related fields of the
template parameter (`report_param_id`). -/
structure ParamValue where
  name : String
  type : String
  val_str : Option String
  val_num : Rat
  val_ref : Option String
  ref_model_name : String
  ref_search_field_name : String
  ref_search_field_description : String
  ref_value_field_name : String
  deriving DecidableEq, Repr

/-- The fields of `mis.report.instance` that the code reads. -/
structure Instance where
  id : Nat
  date : Option Date
  date_from : Option Date
  date_to : Option Date
  period_ids : List Period
  param_value_ids : List ParamValue
  target_move : String
  company_id : Nat
  date_format : Option String
  description_format_single : Option String
  description_format_range : Option String
  deriving DecidableEq, Repr

/-- The error channel: Odoo `ValidationError` / `UserError`, and the Python
runtime errors the file can actually raise (`NameError` for an undefined
name, `AttributeError` for a missing module attribute). -/
inductive OdooError
  | validationError (msg : String)
  | userError (msg : String)
  | nameError (missing_name : String)
  | attributeError (msg : String)
  deriving DecidableEq, Repr

/-- External collaborators, as the spec specifies them at the boundary:
`date_range_search ty co` is the `date.range` rows of type `ty` and company
`co` ordered by `date_start`; `param_search model field v` is the reference
lookup returning matching records as field-valuation functions;
`format_date fmt d` is `_format_date` (locale or custom format);
`has_account_var` and `aml_domain_for_expr` are the
AccountingExpressionProcessor contract; `browse_period` resolves a period
id (`env[...].browse`). -/
structure Env where
  date_range_search : Option Nat → Nat → List DateRange
  param_search : String → String → Option String → List (String → PyValue)
  format_date : Option String → Date → String
  has_account_var : String → Bool
  aml_domain_for_expr : String → Option Date → Option Date → Option String → Option Nat → List String
  browse_period : Nat → Period

/-- `_compute_pivot_date`: the instance `date`, defaulting to today. -/
def Instance.pivot_date (self : Instance) (today : Date) : Date :=
  self.date.getD today

/-- `_compute_comparison_mode`:
`bool(instance.period_ids) and not bool(instance.date_from)`. -/
def Instance.compute_comparison_mode (self : Instance) : Bool :=
  !self.period_ids.isEmpty && !self.date_from.isSome

/-- The `date.range` rows the second search of the `date_range` branch of
`_compute_dates` reads: all ranges of the period's configured type for the
instance company, ordered by `date_start`. -/
def catalog_of (env : Env) (report : Instance) (record : Period) : List DateRange :=
  env.date_range_search record.date_range_type_id report.company_id

/-- The first search of the `date_range` branch: the rows of the catalog
whose `[date_start, date_end]` interval contains the pivot date. -/
def containing_filter (cat : List DateRange) (d : Date) : List DateRange :=
  cat.filter (fun e => decide (e.date_start ≤ d) && decide (d ≤ e.date_end))

/-- The result triple of `_compute_dates` for one period record: the
computed fields `date_from`, `date_to`, `valid`. -/
structure DatesResult where
  date_from : Option Date
  date_to : Option Date
  valid : Bool
  deriving DecidableEq, Repr

/-- The `date_range` branch of `_compute_dates` (source lines 106-127): if
some catalog entry contains the pivot, take the position `p` of the first
such entry plus the offset; when `p >= 0` and `p + duration <= len(...)`
the window is the slice `[p : p + duration]` and the result is the first
entry's start and the last entry's end; in every other case the fields
keep their defaults (no dates, `valid = false`). -/
def date_range_dates (cat : List DateRange) (d : Date) (offset duration : Int) :
    DatesResult :=
  match (containing_filter cat d).head? with
  | none => { date_from := none, date_to := none, valid := false }
  | some c0 =>
    match cat.findIdx? (fun e => e.id == c0.id) with
    | none => { date_from := none, date_to := none, valid := false }
    | some idx =>
      let p : Int := (idx : Int) + offset
      if 0 ≤ p ∧ p + duration ≤ (cat.length : Int) then
        let window := (cat.drop p.toNat).take duration.toNat
        match window.head?, window.getLast? with
        | some first, some last =>
          { date_from := some first.date_start, date_to := some last.date_end,
            valid := true }
        | _, _ => { date_from := none, date_to := none, valid := false }
      else { date_from := none, date_to := none, valid := false }

/-- `MisReportInstancePeriod._compute_dates` for one record.  `report` is
`record.report_instance_id`; `record.valid = record.date_from and
record.date_to` assigns Python truthiness of the two dates.  In the
`date_range` branch the two searches run over the same `date.range` table,
so the containing entries are the ordered table filtered by containment,
and `all_period_ids.index(...)` is the first position holding the id of
the first containing entry. -/
def Period.compute_dates (env : Env) (report : Instance) (today : Date)
    (record : Period) : DatesResult :=
  let d := report.pivot_date today
  if report.compute_comparison_mode = false then
    { date_from := report.date_from, date_to := report.date_to,
      valid := report.date_from.isSome && report.date_to.isSome }
  else if record.mode = Mode.none_ then
    { date_from := none, date_to := none, valid := true }
  else if record.mode = Mode.fix then
    { date_from := record.manual_date_from, date_to := record.manual_date_to,
      valid := record.manual_date_from.isSome && record.manual_date_to.isSome }
  else if record.type = some PType.d then
    let date_from := d + record.offset
    let date_to := date_from + (record.duration - 1)
    { date_from := some date_from, date_to := some date_to, valid := true }
  else if record.type = some PType.w then
    let date_from := d - weekday d + record.offset * 7
    let date_to := date_from + (7 * record.duration - 1)
    { date_from := some date_from, date_to := some date_to, valid := true }
  else if record.type = some PType.date_range then
    date_range_dates (catalog_of env report record) d record.offset record.duration
  else { date_from := none, date_to := none, valid := false }

/-- `MisReportInstancePeriod._check_mode_source`: sources that read data
need a date filter, derived sources must have none. -/
def Period.check_mode_source (self : Period) : Except OdooError Unit :=
  if self.source = Source.actuals ∨ self.source = Source.actuals_alt then
    if self.mode = Mode.none_ then
      .error (.validationError
        ("A date filter is mandatory for this source in column " ++ self.name ++ "."))
    else .ok ()
  else if self.source = Source.sumcol ∨ self.source = Source.cmpcol then
    if self.mode ≠ Mode.none_ then
      .error (.validationError
        ("No date filter is allowed for this source in column " ++ self.name ++ "."))
    else .ok ()
  else .ok ()

/-- Odoo recordset equality against a non-recordset operand:
`BaseModel.__eq__` with an operand that is not a recordset (here the
integer `self.id`) warns about comparing apples and oranges and returns
False, whatever the id values are. -/
def recordset_eq_id (_rs : Option PeriodRef) (_i : Nat) : Bool := false

/-- `MisReportInstancePeriod._check_source_cmpcol`: for a compare-columns
period, both references must be present (non-empty many2one) and both
referenced periods must belong to the period's own report instance (a
recordset-to-recordset comparison, which works).  The self-reference test
of line 296 compares the Many2one recordsets with the integer `self.id`
(`recordset_eq_id`), which is always False, so its raise branch is dead
and a self-referencing period is not rejected. -/
def Period.check_source_cmpcol (self : Period) : Except OdooError Unit :=
  if self.source = Source.cmpcol then
    if self.source_cmpcol_from_id.isNone || self.source_cmpcol_to_id.isNone then
      .error (.validationError
        ("Please provide both columns to compare in " ++ self.name ++ "."))
    else if recordset_eq_id self.source_cmpcol_from_id self.id = true ∨
        recordset_eq_id self.source_cmpcol_to_id self.id = true then
      .error (.validationError
        ("Column " ++ self.name ++ " cannot be compared to itself."))
    else if (self.source_cmpcol_from_id.map PeriodRef.report_instance_id
          ≠ some self.report_instance_id) ∨
        (self.source_cmpcol_to_id.map PeriodRef.report_instance_id
          ≠ some self.report_instance_id) then
      .error (.validationError
        ("Columns to compare must belong to the same report in " ++ self.name))
    else .ok ()
  else .ok ()

/-- Python truthiness of an unset-able string field. -/
def strOptVal : Option String → PyValue
  | none => PyValue.vNone
  | some s => PyValue.vStr s

/-- `MisReportInstanceParamValue._value`.  The final `else` of the source
reads the undefined name `pv` while building the message
(`raise UserError(... % pv.type)` outside any `pv` binding), so an
unrecognized type tag raises Python `NameError` for `pv` before any
`UserError` exists. -/
def ParamValue.value (env : Env) (self : ParamValue) : Except OdooError PyValue :=
  if self.type = "str" then .ok (strOptVal self.val_str)
  else if self.type = "num" then .ok (PyValue.vNum self.val_num)
  else if self.type = "ref" then
    match env.param_search self.ref_model_name self.ref_search_field_name self.val_ref with
    | [] =>
      .error (.userError
        ("Parameter " ++ self.name ++ " error. Cannot find any "
          ++ self.ref_model_name ++ " records with "
          ++ self.ref_search_field_description ++ " equal to "
          ++ (self.val_ref.getD "") ++ "."))
    | r :: _ => .ok (r self.ref_value_field_name)
  else .error (.nameError "pv")

/-- The period `_inverse_comparison_mode` writes when leaving comparison
mode: `{'name': 'Default', 'type': 'd'}` with the model's field defaults
(`mode` defaults to `MODE_FIX`, `offset` to -1, `duration` to 1,
`normalize_factor` to 1, `sequence` to 100, `source` to actuals). -/
def default_period (instance_id : Nat) : Period :=
  { id := 0, name := "Default", mode := Mode.fix, type := some PType.d,
    date_range_type_id := none, offset := -1, duration := 1,
    manual_date_from := none, manual_date_to := none, normalize_factor := 1,
    sequence := 100, report_instance_id := instance_id, subkpi_ids := [],
    source := Source.actuals, source_aml_model := none, source_sumcol_ids := [],
    source_sumcol_accdet := false, source_cmpcol_from_id := none,
    source_cmpcol_to_id := none }

/-- `MisReportInstance._inverse_comparison_mode` with the value written to
`comparison_mode`.  When leaving comparison mode the source evaluates
`record.date_from = datetime.now()` for an unset date, but `datetime` is
the imported module (not the class), which has no attribute `now`, so that
path raises Python `AttributeError` before touching the periods; with both
dates already set it replaces the period collection with the single
default period.  When entering comparison mode it clears both fixed
dates. -/
def Instance.inverse_comparison_mode (new_value : Bool) (self : Instance) :
    Except OdooError Instance :=
  if new_value = false then
    if self.date_from.isNone then
      .error (.attributeError "module datetime has no attribute now")
    else if self.date_to.isNone then
      .error (.attributeError "module datetime has no attribute now")
    else
      .ok { self with period_ids := [default_period self.id] }
  else
    .ok { self with date_from := none, date_to := none }

/-- One call the Column Builder records against the external KPI-matrix
contract (`declare_and_compute_period`, `declare_sum`,
`declare_comparison`), plus the orchestrator's two finishing phases. -/
inductive MatrixDecl
  | declare_period (col_id : Nat) (label : String) (description : Option String)
      (date_from date_to : Date) (target_move : Option String)
      (subkpi_ids : List Nat) (aml_model : Option String)
  | declare_sum (col_id : Nat) (entries : List (Sign × Nat)) (label : String)
      (description : Option String) (accdet : Bool)
  | declare_comparison (col_id : Nat) (to_id from_id : Option Nat)
      (label : String) (description : Option String)
  | compute_comparisons
  | compute_sums
  deriving DecidableEq, Repr

/-- `MisReportInstance._add_column_actuals`: requires both computed dates,
otherwise `UserError` naming the column. -/
def Instance.add_column_actuals (env : Env) (today : Date) (self : Instance)
    (period : Period) (label : String) (description : Option String) :
    Except OdooError MatrixDecl :=
  let r := period.compute_dates env self today
  match r.date_from, r.date_to with
  | some df, some dt =>
    .ok (.declare_period period.id label description df dt
      (some self.target_move) period.subkpi_ids none)
  | _, _ =>
    .error (.userError
      ("Column " ++ period.name ++ " with actuals source must have from/to dates."))

/-- `MisReportInstance._add_column_actuals_alt`: like actuals but with no
posted/all filter and against the alternative move-line model. -/
def Instance.add_column_actuals_alt (env : Env) (today : Date) (self : Instance)
    (period : Period) (label : String) (description : Option String) :
    Except OdooError MatrixDecl :=
  let r := period.compute_dates env self today
  match r.date_from, r.date_to with
  | some df, some dt =>
    .ok (.declare_period period.id label description df dt none
      period.subkpi_ids period.source_aml_model)
  | _, _ =>
    .error (.userError
      ("Column " ++ period.name ++ " with actuals source must have from/to dates."))

/-- `MisReportInstance._add_column_sumcol`. -/
def Instance.add_column_sumcol (period : Period) (label : String)
    (description : Option String) : Except OdooError MatrixDecl :=
  .ok (.declare_sum period.id
    (period.source_sumcol_ids.map (fun c => (c.sign, c.period_to_sum_id)))
    label description period.source_sumcol_accdet)

/-- `MisReportInstance._add_column_cmpcol`. -/
def Instance.add_column_cmpcol (period : Period) (label : String)
    (description : Option String) : Except OdooError MatrixDecl :=
  .ok (.declare_comparison period.id
    (period.source_cmpcol_to_id.map PeriodRef.id)
    (period.source_cmpcol_from_id.map PeriodRef.id)
    label description)

/-- `MisReportInstance._add_column`: dispatch on the period source. -/
def Instance.add_column (env : Env) (today : Date) (self : Instance)
    (period : Period) (label : String) (description : Option String) :
    Except OdooError MatrixDecl :=
  if period.source = Source.actuals then
    self.add_column_actuals env today period label description
  else if period.source = Source.actuals_alt then
    self.add_column_actuals_alt env today period label description
  else if period.source = Source.sumcol then
    Instance.add_column_sumcol period label description
  else
    Instance.add_column_cmpcol period label description

/-- `MisReportInstance._subst_description_dates`: substitute the
`<<from>>` and `<<to>>` tokens. -/
def Instance.subst_description_dates (description_format date_from date_to : String) :
    String :=
  (description_format.replace "<<from>>" date_from).replace "<<to>>" date_to

/-- The per-period description of `_compute_matrix` (source lines 735-759):
none for a date-less period, a single-date phrasing when both computed
dates coincide, a range phrasing when both are present, substituting the
instance formats when configured. -/
def Instance.period_description (env : Env) (today : Date) (self : Instance)
    (period : Period) : Option String :=
  let r := period.compute_dates env self today
  let date_from := match r.date_from with
    | some df => env.format_date self.date_format df
    | none => ""
  let date_to := match r.date_to with
    | some dt => env.format_date self.date_format dt
    | none => ""
  if period.mode = Mode.none_ then none
  else if r.date_from = r.date_to ∧ r.date_from.isSome then
    match self.description_format_single with
    | some fmt => some (Instance.subst_description_dates fmt date_from date_to)
    | none => some date_from
  else if r.date_from.isSome ∧ r.date_to.isSome then
    match self.description_format_range with
    | some fmt => some (Instance.subst_description_dates fmt date_from date_to)
    | none => some ("from " ++ date_from ++ " to " ++ date_to)
  else none

/-- The column loop of `_compute_matrix`: each period in declared order is
dispatched to `_add_column` with its label (the period name) and computed
description; the first failure aborts the loop. -/
def Instance.add_columns (env : Env) (today : Date) (self : Instance) :
    List Period → Except OdooError (List MatrixDecl)
  | [] => .ok []
  | period :: rest =>
    match self.add_column env today period period.name
        (self.period_description env today period) with
    | .error e => .error e
    | .ok decl =>
      match self.add_columns env today rest with
      | .error e => .error e
      | .ok rest_decls => .ok (decl :: rest_decls)

/-- `MisReportInstance._compute_matrix`: declare every column, then the two
finishing phases, comparisons strictly before sums. -/
def Instance.compute_matrix (env : Env) (today : Date) (self : Instance) :
    Except OdooError (List MatrixDecl) :=
  match self.add_columns env today self.period_ids with
  | .error e => .error e
  | .ok decls => .ok (decls ++ [MatrixDecl.compute_comparisons, MatrixDecl.compute_sums])

/-- The dictionary comprehension of `MisReportInstance._param_vals` over a
list of parameter values; the first resolution failure aborts. -/
def param_vals_list (env : Env) : List ParamValue →
    Except OdooError (List (String × PyValue))
  | [] => .ok []
  | pv :: rest =>
    match pv.value env with
    | .error e => .error e
    | .ok v =>
      match param_vals_list env rest with
      | .error e => .error e
      | .ok vs => .ok ((pv.name, v) :: vs)

/-- `MisReportInstance._param_vals`: the name-to-value mapping of all
parameter values of the instance. -/
def Instance.param_vals (env : Env) (self : Instance) :
    Except OdooError (List (String × PyValue)) :=
  param_vals_list env self.param_value_ids

/-- `MisReportInstance.compute`: resolve the parameter context, then build
the matrix; any failure yields the error and no matrix. -/
def Instance.compute (env : Env) (today : Date) (self : Instance) :
    Except OdooError (List MatrixDecl) :=
  match self.param_vals env with
  | .error e => .error e
  | .ok _ => self.compute_matrix env today

/-- `MisReportInstancePeriod._get_additional_move_line_filter`: the
injectable hook defaults to no extra restriction. -/
def Period.additional_move_line_filter (_ : Period) : List String := []

/-- The argument dictionary of `MisReportInstance.drilldown`. -/
structure DrilldownArg where
  period_id : Option Nat
  expr : Option String
  account_id : Option Nat
  deriving DecidableEq, Repr

/-- The act-window descriptor `drilldown` returns on success. -/
structure DrilldownAction where
  name : String
  domain : List String
  res_model : Option String
  deriving DecidableEq, Repr

/-- `MisReportInstance.drilldown`: `False` (here `none`) unless a truthy
period id, a truthy expression and an account-like variable in the
expression; otherwise the descriptor with label `expr - period.name`, the
move-line domain extended by the period hook, and the target model
(the alternative model only for the alternative-actuals source). -/
def Instance.drilldown (env : Env) (today : Date) (self : Instance)
    (arg : DrilldownArg) : Option DrilldownAction :=
  match arg.period_id, arg.expr with
  | some pid, some expr =>
    if pid ≠ 0 ∧ expr ≠ "" ∧ env.has_account_var expr = true then
      let period := env.browse_period pid
      let r := period.compute_dates env self today
      let domain := env.aml_domain_for_expr expr r.date_from r.date_to
        (if period.source = Source.actuals then some self.target_move else none)
        arg.account_id
      let domain := domain ++ period.additional_move_line_filter
      let aml_model_name :=
        if period.source = Source.actuals_alt then period.source_aml_model
        else some "account.move.line"
      some { name := expr ++ " - " ++ period.name, domain := domain,
             res_model := aml_model_name }
    else none
  | _, _ => none

/-- The key of the `name_unique` SQL constraint of
`mis.report.instance.period`: `unique(name, report_instance_id)`. -/
def period_pair (p : Period) : String × Nat := (p.name, p.report_instance_id)

/-- The `_sql_constraints` of `mis.report.instance.period`, checked by the
database on the state a mutation leaves behind: positive duration,
positive normalize factor, and per-instance unique period names. -/
def enforce_period_constraints (rows : List Period) : Except OdooError (List Period) :=
  if ¬ rows.all (fun p => 0 < p.duration) then
    .error (.validationError "Wrong duration, it must be positive!")
  else if ¬ rows.all (fun p => 0 < p.normalize_factor) then
    .error (.validationError "Wrong normalize factor, it must be positive!")
  else if ¬ (rows.map period_pair).Nodup then
    .error (.validationError "Period name should be unique by report")
  else .ok rows

/-- Any mutation of the period table (create, write, unlink composed as a
function on the row list) goes through the SQL constraints. -/
def apply_period_mutation (f : List Period → List Period) (rows : List Period) :
    Except OdooError (List Period) :=
  enforce_period_constraints (f rows)

/-! ## Concrete fixtures used by witnesses and counterexamples -/

/-- A date-less derived period (mode `none`, source sum-of-columns). -/
def p_nodate : Period :=
  { id := 1, name := "P", mode := Mode.none_, type := none,
    date_range_type_id := none, offset := -1, duration := 1,
    manual_date_from := none, manual_date_to := none, normalize_factor := 1,
    sequence := 100, report_instance_id := 1, subkpi_ids := [],
    source := Source.sumcol, source_aml_model := none, source_sumcol_ids := [],
    source_sumcol_accdet := false, source_cmpcol_from_id := none,
    source_cmpcol_to_id := none }

/-- An environment with empty external collaborators. -/
def sample_env : Env :=
  { date_range_search := fun _ _ => [], param_search := fun _ _ _ => [],
    format_date := fun _ _ => "", has_account_var := fun _ => false,
    aml_domain_for_expr := fun _ _ _ _ _ => [], browse_period := fun _ => p_nodate }

/-- An instance in comparison mode: one period, no fixed dates. -/
def inst_cmp : Instance :=
  { id := 1, date := none, date_from := none, date_to := none,
    period_ids := [p_nodate], param_value_ids := [], target_move := "posted",
    company_id := 1, date_format := none, description_format_single := none,
    description_format_range := none }

/-- An instance in single fixed-range mode: `date_from` is set. -/
def inst_fixed : Instance := { inst_cmp with date_from := some 3, date_to := some 8 }

/-- An instance with only the fixed `date_from` set. -/
def inst_from_only : Instance := { inst_cmp with date_from := some 3 }

/-- An instance with only the fixed `date_to` set. -/
def inst_to_only : Instance := { inst_cmp with date_to := some 5 }

/-- A relative week period (the §8 end-to-end example: offset 0,
duration 1). -/
def p_week : Period :=
  { p_nodate with
    mode := Mode.relative, type := some PType.w, offset := 0,
    source := Source.actuals }

/-- An actuals column with fixed mode and only a manual start date. -/
def p_colA : Period :=
  { p_nodate with
    name := "colA", mode := Mode.fix, source := Source.actuals,
    manual_date_from := some 0 }

/-- The instance owning `p_colA` only, in comparison mode. -/
def inst_colA : Instance := { inst_cmp with period_ids := [p_colA] }

/-! ## C1 — a NoDateFilter period resolves to (absent, absent, valid) only
in comparison mode -/

/-- C1 counterexample: a Period with `mode = NoDateFilter` owned by an
instance that is not in comparison mode (its fixed `date_from` is set, its
`date_to` unset) resolves with `valid = false` and a present `date_from`,
refuting the claim that `valid = true` with both dates absent holds
regardless of the owning instance's comparison mode. -/
theorem C1_counterexample :
    p_nodate.mode = Mode.none_ ∧
    Instance.compute_comparison_mode inst_from_only = false ∧
    (p_nodate.compute_dates sample_env inst_from_only 0).valid = false ∧
    (p_nodate.compute_dates sample_env inst_from_only 0).date_from = some 3 :=
  ⟨rfl, rfl, rfl, rfl⟩

/-- C1 (amended): for every Period with `mode = NoDateFilter` resolved
while the owning instance is in comparison mode, the dates are absent and
`valid = true`, regardless of type, offset and duration. -/
theorem C1_nodatefilter_dates (env : Env) (report : Instance) (today : Date)
    (record : Period) (hm : record.mode = Mode.none_)
    (hc : report.compute_comparison_mode = true) :
    record.compute_dates env report today =
      { date_from := none, date_to := none, valid := true } := by
  simp [Period.compute_dates, hc, hm]

/-- C1 witness: the amended theorem at a concrete comparison-mode instance
and date-less period. -/
theorem C1_witness :
    p_nodate.compute_dates sample_env inst_cmp 0 =
      { date_from := none, date_to := none, valid := true } :=
  C1_nodatefilter_dates sample_env inst_cmp 0 p_nodate rfl rfl

/-! ## C2 — the compare-columns configuration checks: the self-reference
check is dead -/

/-- A well-formed compare-columns period: both references present, distinct
from itself, same owning instance. -/
def p_cmp_ok : Period :=
  { p_nodate with
    id := 5, name := "cmp", source := Source.cmpcol,
    source_cmpcol_from_id := some { id := 2, report_instance_id := 1 },
    source_cmpcol_to_id := some { id := 3, report_instance_id := 1 } }

/-- A compare-columns period missing its `from` reference. -/
def p_cmp_missing : Period := { p_cmp_ok with source_cmpcol_from_id := none }

/-- A compare-columns period whose `from` reference is the period itself
(same id 5, same instance). -/
def p_cmp_self : Period :=
  { p_cmp_ok with
    source_cmpcol_from_id := some { id := 5, report_instance_id := 1 } }

/-- A compare-columns period whose `to` reference belongs to another
instance. -/
def p_cmp_cross : Period :=
  { p_cmp_ok with
    source_cmpcol_to_id := some { id := 3, report_instance_id := 2 } }

/-- C2: the missing-reference and cross-instance checks fire and a
well-formed configuration passes, but a period comparing itself to
another column is accepted: the self-reference condition of line 296
compares a Many2one recordset with the integer `self.id`, which Odoo
evaluates to False for any ids, so the claimed "cannot be compared to
itself" ValidationError is never raised. -/
theorem C2_self_check_dead :
    p_cmp_self.check_source_cmpcol = Except.ok () ∧
    p_cmp_missing.check_source_cmpcol = Except.error (OdooError.validationError
      "Please provide both columns to compare in cmp.") ∧
    p_cmp_cross.check_source_cmpcol = Except.error (OdooError.validationError
      "Columns to compare must belong to the same report in cmp") ∧
    p_cmp_ok.check_source_cmpcol = Except.ok () :=
  ⟨rfl, rfl, rfl, rfl⟩

/-! ## C3 — the unsupported-parameter-type branch raises NameError, not the
documented UserError -/

/-- A parameter value whose type tag is none of `str`, `num`, `ref`. -/
def pv_bool : ParamValue :=
  { name := "flag", type := "bool", val_str := some "x", val_num := 1,
    val_ref := none, ref_model_name := "res.partner",
    ref_search_field_name := "name", ref_search_field_description := "Name",
    ref_value_field_name := "id" }

/-- Another unrecognized type tag with different stored raw values. -/
def pv_sel : ParamValue :=
  { pv_bool with name := "choice", type := "selection", val_str := none, val_num := 7 }

/-- C3: resolving a parameter value with an unrecognized type tag fails,
but with Python `NameError` on the undefined name `pv` (the message of the
intended `UserError` reads `pv.type` outside any binding of `pv`), not
with the "unsupported parameter type" error the spec states; so on both
fixtures the resolver's error is the `NameError`, whatever the stored raw
values. -/
theorem C3_unsupported_type_name_error :
    pv_bool.value sample_env = Except.error (OdooError.nameError "pv") ∧
    pv_sel.value sample_env = Except.error (OdooError.nameError "pv") :=
  ⟨rfl, rfl⟩

/-! ## C4 — switching out of comparison mode crashes on `datetime.now()` -/

/-- C4: entering comparison mode does clear the fixed dates, but an
instance actually in comparison mode (periods present, no fixed
`date_from`) that is switched out of it hits
`record.date_from = datetime.now()` where `datetime` is the module, and
the switch dies with `AttributeError` instead of installing the default
single-range state. -/
theorem C4_inverse_comparison_mode_bug :
    Instance.compute_comparison_mode inst_cmp = true ∧
    Instance.inverse_comparison_mode false inst_cmp =
      Except.error (OdooError.attributeError "module datetime has no attribute now") ∧
    Instance.inverse_comparison_mode true inst_fixed =
      Except.ok { inst_fixed with date_from := none, date_to := none } :=
  ⟨rfl, rfl, rfl⟩

/-! ## C5 — `comparison_mode` consults only `date_from` -/

/-- Modelled from the spec: "no fixed date range is set (a fixed
[date_from, date_to] override being absent)" — the fixed range override is
absent when both of its dates are unset. -/
def fixed_date_range_absent (i : Instance) : Prop :=
  i.date_from = none ∧ i.date_to = none

/-- C5 counterexample: an instance with one period, no `date_from` but a
set `date_to` computes `comparison_mode = true` although its fixed
[date_from, date_to] override is not absent, refuting the claimed
equivalence. -/
theorem C5_counterexample :
    inst_to_only.period_ids.length = 1 ∧
    Instance.compute_comparison_mode inst_to_only = true ∧
    (fixed_date_range_absent inst_to_only ↔ False) := by
  refine ⟨rfl, rfl, ?_⟩
  simp [fixed_date_range_absent, inst_to_only, inst_cmp]

/-- C5 (amended): `comparison_mode` is true iff the instance has at least
one Period and its fixed `date_from` is unset; `date_to` is not
consulted. -/
theorem C5_comparison_mode_iff (i : Instance) :
    i.compute_comparison_mode = true ↔ (i.period_ids ≠ [] ∧ i.date_from = none) := by
  unfold Instance.compute_comparison_mode
  cases h : i.date_from <;>
    simp [List.isEmpty_iff, h]

/-! ## C6 — relative week periods start on a Monday -/

/-- C6: a `RelativeToBase` week period resolved in comparison mode starts
at the Monday of the pivot week shifted by `offset` whole weeks (so
`date_from` falls on a Monday), ends `7 * duration - 1` days later, and is
always valid. -/
theorem C6_week_monday (env : Env) (report : Instance) (today : Date)
    (record : Period) (hm : record.mode = Mode.relative)
    (ht : record.type = some PType.w)
    (hc : report.compute_comparison_mode = true) :
    (record.compute_dates env report today).date_from =
      some (report.pivot_date today - weekday (report.pivot_date today)
        + record.offset * 7) ∧
    weekday (report.pivot_date today - weekday (report.pivot_date today)
        + record.offset * 7) = 0 ∧
    (record.compute_dates env report today).date_to =
      some (report.pivot_date today - weekday (report.pivot_date today)
        + record.offset * 7 + (7 * record.duration - 1)) ∧
    (record.compute_dates env report today).valid = true := by
  have hmonday : weekday (report.pivot_date today - weekday (report.pivot_date today)
      + record.offset * 7) = 0 := by
    unfold weekday
    omega
  refine ⟨?_, hmonday, ?_, ?_⟩ <;>
    simp [Period.compute_dates, hc, hm, ht]

/-- C6 witness: the §8 end-to-end example — pivot on a Friday (day 4 of
the epoch week), offset 0, duration 1 gives the enclosing Monday-to-Sunday
week, and day 0 is a Monday. -/
theorem C6_witness :
    p_week.compute_dates sample_env inst_cmp 4 =
      { date_from := some 0, date_to := some 6, valid := true } ∧
    weekday 0 = 0 := by
  have h := C6_week_monday sample_env inst_cmp 4 p_week rfl rfl rfl
  exact ⟨rfl, rfl⟩

/-! ## C7 — the date-range catalog window -/

/-- The slice `l[n : n + k]` of a list that is long enough: its head is the
element at `n` and its last element the one at `n + k - 1`. -/
theorem window_head_getLast (l : List DateRange) (n k : Nat) (hk : 0 < k)
    (hlen : n + k ≤ l.length) :
    ((l.drop n).take k).head? = l[n]? ∧
    ((l.drop n).take k).getLast? = l[n + (k - 1)]? := by
  constructor
  · rw [List.head?_eq_getElem?, List.getElem?_take, if_pos hk, List.getElem?_drop,
      Nat.add_zero]
  · rw [List.getLast?_eq_getElem?, List.length_take, List.length_drop]
    have hmin : min k (l.length - n) = k := by omega
    rw [hmin, List.getElem?_take, if_pos (by omega : k - 1 < k), List.getElem?_drop]

/-- C7: a `RelativeToBase` date-range period in comparison mode resolves
to no dates with `valid = false` when the catalog has no entry containing
the pivot, when the pivot position plus offset is negative, or when the
window of `duration` entries runs past the end of the catalog; otherwise
both window indices are within the catalog (no out-of-bounds access) and
the result is the first window entry's start and last window entry's end,
valid. -/
theorem C7_date_range_window (env : Env) (report : Instance) (today : Date)
    (record : Period) (hm : record.mode = Mode.relative)
    (ht : record.type = some PType.date_range)
    (hc : report.compute_comparison_mode = true)
    (hdur : 0 < record.duration) :
    ((containing_filter (catalog_of env report record)
        (report.pivot_date today)).head? = none →
      record.compute_dates env report today =
        { date_from := none, date_to := none, valid := false })
    ∧ ∀ c0 idx,
      (containing_filter (catalog_of env report record)
        (report.pivot_date today)).head? = some c0 →
      (catalog_of env report record).findIdx? (fun e => e.id == c0.id) = some idx →
      ((((idx : Int) + record.offset < 0 ∨
          ((catalog_of env report record).length : Int) <
            (idx : Int) + record.offset + record.duration) →
        record.compute_dates env report today =
          { date_from := none, date_to := none, valid := false })
      ∧ (0 ≤ (idx : Int) + record.offset →
         (idx : Int) + record.offset + record.duration ≤
           ((catalog_of env report record).length : Int) →
         ((idx : Int) + record.offset).toNat < (catalog_of env report record).length
         ∧ ((idx : Int) + record.offset + record.duration - 1).toNat <
             (catalog_of env report record).length
         ∧ record.compute_dates env report today =
             { date_from := ((catalog_of env report record)[((idx : Int)
                 + record.offset).toNat]?).map DateRange.date_start,
               date_to := ((catalog_of env report record)[((idx : Int)
                 + record.offset + record.duration - 1).toNat]?).map DateRange.date_end,
               valid := true })) := by
  have hred : record.compute_dates env report today =
      date_range_dates (catalog_of env report record) (report.pivot_date today)
        record.offset record.duration := by
    simp [Period.compute_dates, hc, hm, ht]
  constructor
  · intro h0
    rw [hred]
    simp only [date_range_dates, h0]
  · intro c0 idx hc0 hidx
    constructor
    · intro hbad
      rw [hred]
      simp only [date_range_dates, hc0, hidx]
      rw [if_neg (by rcases hbad with h | h <;> omega)]
    · intro h0 h1
      have hn : ((idx : Int) + record.offset).toNat <
          (catalog_of env report record).length := by omega
      have hlastn : ((idx : Int) + record.offset + record.duration - 1).toNat <
          (catalog_of env report record).length := by omega
      refine ⟨hn, hlastn, ?_⟩
      have hw := window_head_getLast (catalog_of env report record)
        ((idx : Int) + record.offset).toNat record.duration.toNat
        (by omega) (by omega)
      have hfirst := List.getElem?_eq_getElem hn
      have hlaste := List.getElem?_eq_getElem hlastn
      have hix : ((idx : Int) + record.offset).toNat + (record.duration.toNat - 1) =
          ((idx : Int) + record.offset + record.duration - 1).toNat := by omega
      rw [hred]
      simp only [date_range_dates, hc0, hidx]
      rw [if_pos ⟨h0, h1⟩]
      rw [hw.1, hw.2, hix, hfirst, hlaste]
      simp

/-- An environment whose date-range catalog holds three consecutive
ten-day ranges. -/
def env_dr : Env :=
  { sample_env with
    date_range_search := fun _ _ =>
      [{ id := 1, date_start := 0, date_end := 9 },
       { id := 2, date_start := 10, date_end := 19 },
       { id := 3, date_start := 20, date_end := 29 }] }

/-- A relative date-range period: previous range and current range
(offset -1, duration 2). -/
def p_dr : Period :=
  { p_nodate with
    mode := Mode.relative, type := some PType.date_range, offset := -1,
    duration := 2, source := Source.actuals }

/-- C7 witness: with pivot day 12 (inside the middle range) the window is
the first two ranges, giving `[0, 19]`. -/
theorem C7_witness :
    p_dr.compute_dates env_dr inst_cmp 12 =
      { date_from := some 0, date_to := some 19, valid := true } := by
  have h := ((C7_date_range_window env_dr inst_cmp 12 p_dr rfl rfl rfl
    (by decide)).2 { id := 2, date_start := 10, date_end := 19 } 1 rfl rfl).2
    (by decide) (by decide)
  exact h.2.2.trans rfl

/-! ## C8 — an actuals column with unresolved dates aborts `compute` -/

/-- The Column Builder fails with the column-naming `UserError` on an
actuals-sourced period whose resolved dates are incomplete. -/
theorem add_column_missing_dates (env : Env) (today : Date) (self : Instance)
    (p : Period) (label : String) (descr : Option String)
    (hsrc : p.source = Source.actuals ∨ p.source = Source.actuals_alt)
    (hd : (p.compute_dates env self today).date_from = none ∨
          (p.compute_dates env self today).date_to = none) :
    self.add_column env today p label descr = Except.error (OdooError.userError
      ("Column " ++ p.name ++ " with actuals source must have from/to dates.")) := by
  rcases hsrc with h | h <;>
  · simp only [Instance.add_column, Instance.add_column_actuals,
      Instance.add_column_actuals_alt, h]
    cases h1 : (p.compute_dates env self today).date_from with
    | none => simp [h1]
    | some df =>
      rcases hd with hd | hd
      · rw [h1] at hd; cases hd
      · simp [h1, hd]

/-- If some period of the list is an actuals column with incomplete dates,
the column loop fails. -/
theorem add_columns_error (env : Env) (today : Date) (self : Instance)
    (ps : List Period) (p : Period) (hp : p ∈ ps)
    (hsrc : p.source = Source.actuals ∨ p.source = Source.actuals_alt)
    (hd : (p.compute_dates env self today).date_from = none ∨
          (p.compute_dates env self today).date_to = none) :
    ∃ e, self.add_columns env today ps = Except.error e := by
  induction ps with
  | nil => cases hp
  | cons q rest ih =>
    rcases List.mem_cons.mp hp with rfl | hmem
    · exact ⟨OdooError.userError
        ("Column " ++ p.name ++ " with actuals source must have from/to dates."),
        by
          unfold Instance.add_columns
          rw [add_column_missing_dates env today self p p.name
            (self.period_description env today p) hsrc hd]⟩
    · cases hq : self.add_column env today q q.name (self.period_description env today q) with
      | error e => exact ⟨e, by unfold Instance.add_columns; rw [hq]⟩
      | ok decl =>
        obtain ⟨e, he⟩ := ih hmem
        exact ⟨e, by unfold Instance.add_columns; rw [hq, he]⟩

/-- C8: a report instance holding an actuals-sourced (or
alternative-actuals) column with a missing resolved `date_from` or
`date_to` never returns a matrix from `compute` — the computation aborts
with an error — and on the concrete instance `inst_colA` the error is the
`UserError` naming the offending column. -/
theorem C8_actuals_missing_dates (env : Env) (today : Date) (self : Instance)
    (p : Period) (hp : p ∈ self.period_ids)
    (hsrc : p.source = Source.actuals ∨ p.source = Source.actuals_alt)
    (hd : (p.compute_dates env self today).date_from = none ∨
          (p.compute_dates env self today).date_to = none) :
    (∃ e, self.compute env today = Except.error e) ∧
    inst_colA.compute sample_env 0 = Except.error (OdooError.userError
      "Column colA with actuals source must have from/to dates.") := by
  refine ⟨?_, rfl⟩
  have hmx : ∃ e, self.compute_matrix env today = Except.error e := by
    obtain ⟨e, he⟩ := add_columns_error env today self self.period_ids p hp hsrc hd
    exact ⟨e, by unfold Instance.compute_matrix; rw [he]⟩
  cases hpv : self.param_vals env with
  | error e => exact ⟨e, by unfold Instance.compute; rw [hpv]⟩
  | ok vals =>
    obtain ⟨e, he⟩ := hmx
    exact ⟨e, by unfold Instance.compute; rw [hpv, he]⟩

/-- C8 witness: the theorem at the concrete instance whose only column is
an actuals column with no `date_to`. -/
theorem C8_witness :
    inst_colA.compute sample_env 0 = Except.error (OdooError.userError
      "Column colA with actuals source must have from/to dates.") := by
  have h := C8_actuals_missing_dates sample_env 0 inst_colA p_colA
    (by decide) (Or.inl rfl) (Or.inr rfl)
  exact h.2

/-! ## C9 — drill-down returns the sentinel or a full descriptor -/

/-- C9: a drill-down call without a truthy period id, without a truthy
expression, or whose expression holds no account-like variable yields the
sentinel (`False`, here `none`); with all three present it yields the
descriptor carrying the `expr - period label` name, the move-line filter
extended by the period hook, and the target model (the alternative model
exactly for the alternative-actuals source). -/
theorem C9_drilldown (env : Env) (today : Date) (self : Instance)
    (arg : DrilldownArg) :
    ((arg.period_id = none ∨ arg.period_id = some 0 ∨ arg.expr = none ∨
        arg.expr = some "" ∨
        (∀ e, arg.expr = some e → env.has_account_var e = false)) →
      self.drilldown env today arg = none)
    ∧ ∀ pid e, arg.period_id = some pid → arg.expr = some e → pid ≠ 0 → e ≠ "" →
        env.has_account_var e = true →
        self.drilldown env today arg =
          some { name := e ++ " - " ++ (env.browse_period pid).name,
                 domain := env.aml_domain_for_expr e
                     ((env.browse_period pid).compute_dates env self today).date_from
                     ((env.browse_period pid).compute_dates env self today).date_to
                     (if (env.browse_period pid).source = Source.actuals
                      then some self.target_move else none) arg.account_id
                   ++ (env.browse_period pid).additional_move_line_filter,
                 res_model := if (env.browse_period pid).source = Source.actuals_alt
                   then (env.browse_period pid).source_aml_model
                   else some "account.move.line" } := by
  constructor
  · intro h
    rcases h with h | h | h | h | h
    · simp [Instance.drilldown, h]
    · cases he : arg.expr with
      | none => simp [Instance.drilldown, h, he]
      | some e => simp [Instance.drilldown, h, he]
    · cases hp : arg.period_id with
      | none => simp [Instance.drilldown, h, hp]
      | some pid => simp [Instance.drilldown, h, hp]
    · cases hp : arg.period_id with
      | none => simp [Instance.drilldown, h, hp]
      | some pid => simp [Instance.drilldown, h, hp]
    · cases hp : arg.period_id with
      | none => simp [Instance.drilldown, hp]
      | some pid =>
        cases he : arg.expr with
        | none => simp [Instance.drilldown, hp, he]
        | some e => simp [Instance.drilldown, hp, he, h e he]
  · intro pid e hp he hpid hne hav
    simp [Instance.drilldown, hp, he, hpid, hne, hav]

/-- An environment recognizing one account expression, browsing to the
week period. -/
def env_dd : Env :=
  { sample_env with
    has_account_var := fun s => s == "balp[70]",
    browse_period := fun _ => p_week }

/-- C9 witness: the theorem at a concrete argument with no account
variable (sentinel) and at a concrete complete argument (descriptor). -/
theorem C9_witness :
    inst_cmp.drilldown env_dd 0
      { period_id := some 7, expr := some "1+1", account_id := none } = none ∧
    (inst_cmp.drilldown env_dd 0
      { period_id := some 7, expr := some "balp[70]", account_id := none }).isSome
      = true := by
  constructor
  · exact (C9_drilldown env_dd 0 inst_cmp
      { period_id := some 7, expr := some "1+1", account_id := none }).1
      (Or.inr (Or.inr (Or.inr (Or.inr (fun e he => by
        injection he with h
        subst h
        rfl)))))
  · have h := (C9_drilldown env_dd 0 inst_cmp
      { period_id := some 7, expr := some "balp[70]", account_id := none }).2
      7 "balp[70]" rfl rfl (by decide) (by decide) rfl
    rw [h]
    rfl

/-! ## C10 — period names are unique per report instance -/

/-- C10: after any mutation of the period table that the SQL constraints
accept, no two rows at distinct positions with the same owning instance
share a name, and a post-state holding such a duplicate is never
accepted. -/
theorem C10_period_name_unique (f : List Period → List Period)
    (rows : List Period) (i j : Nat) (a b : Period) (hij : i ≠ j)
    (ha : (f rows)[i]? = some a) (hb : (f rows)[j]? = some b)
    (hinst : a.report_instance_id = b.report_instance_id) :
    (a.name = b.name → ∀ r, apply_period_mutation f rows ≠ Except.ok r)
    ∧ (∀ r, apply_period_mutation f rows = Except.ok r → a.name ≠ b.name) := by
  have key : ∀ r, apply_period_mutation f rows = Except.ok r → a.name ≠ b.name := by
    intro r hok hname
    have hnd : ((f rows).map period_pair).Nodup := by
      unfold apply_period_mutation enforce_period_constraints at hok
      split_ifs at hok with h1 h2 h3
      exact h3
    have hi : i < ((f rows).map period_pair).length := by
      rw [List.length_map]
      have := List.getElem?_eq_some.mp ha
      exact this.1
    have hmi : ((f rows).map period_pair)[i]? = some (period_pair a) := by
      rw [List.getElem?_map, ha]; rfl
    have hmj : ((f rows).map period_pair)[j]? = some (period_pair b) := by
      rw [List.getElem?_map, hb]; rfl
    have hpair : period_pair a = period_pair b := by
      unfold period_pair
      rw [hname, hinst]
    exact hij (List.getElem?_inj hi hnd (by rw [hmi, hmj, hpair]))
  exact ⟨fun hname r hok => key r hok hname, key⟩

/-- Two distinct periods sharing a name and an owning instance. -/
def p_dup1 : Period := { p_nodate with id := 11, name := "X" }

/-- The second duplicate-named period of the same instance. -/
def p_dup2 : Period := { p_nodate with id := 12, name := "X" }

/-- C10 witness: installing two same-named periods of one instance is
rejected with the name-uniqueness constraint error, hence never
accepted. -/
theorem C10_witness :
    apply_period_mutation (fun _ => [p_dup1, p_dup2]) [] =
      Except.error (OdooError.validationError "Period name should be unique by report")
    ∧ (apply_period_mutation (fun _ => [p_dup1, p_dup2]) [] =
        Except.ok [p_dup1, p_dup2] ↔ False) := by
  refine ⟨rfl, ?_⟩
  have h := (C10_period_name_unique (fun _ => [p_dup1, p_dup2]) [] 0 1 p_dup1 p_dup2
    (by decide) rfl rfl rfl).1 rfl
  exact iff_false_intro (h [p_dup1, p_dup2])

end MisBuilder
